import Mathlib

/-!
Verification of the EmeraldPerfBackend reporting API (src/src/server.js).

The development shallowly embeds the query-construction and
result-normalization layer of the server:

* database cell values (`DbVal`), lenient JavaScript numeric parsing
  (`jsParseFloat`, `jsParseInt`) and the `|| 0` / `|| ''` coercions;
* the row normalizer `convertToDashboardFormat` (server.js lines 58-125);
* per-table SQL query evaluation: WHERE-clause predicates, the
  latest-snapshot correlated subquery, ORDER BY and LIMIT
  (lines 195-228 and 313-344);
* the endpoint handlers for `/api/loan-data`, `/api/loan-data/:loanType`
  and the Express route-dispatch order (lines 137-366, 369-427);
* the NPL categorical ORDER BY (lines 436-471).

Numeric cells are modelled as exact rationals; dates as day codes (`Nat`);
timestamps as `Nat`.  Rows are plain structures, queries are pure list
functions, so every definition is executable.
-/

namespace Emerald

/-- A cell value as delivered by the MySQL driver: SQL NULL, a numeric
value, or a string (the driver may deliver DECIMAL columns as strings). -/
inductive DbVal where
  | vNull : DbVal
  | vNum : ℚ → DbVal
  | vStr : String → DbVal
deriving DecidableEq, Repr

/-- Split a character list into its leading run of decimal digits and the
rest. -/
def takeDigits : List Char → List Char × List Char
  | [] => ([], [])
  | c :: cs =>
    if c.isDigit then
      let p := takeDigits cs
      (c :: p.1, p.2)
    else ([], c :: cs)

/-- Value of a list of decimal digit characters. -/
def digitsToNat (ds : List Char) : Nat :=
  ds.foldl (fun a c => a * 10 + (c.toNat - 48)) 0

/-- ASCII lowercasing of one character, as `toLowerCase` acts on the
operator-filter strings (which are ASCII). -/
def charToLower (c : Char) : Char :=
  if 'A' ≤ c ∧ c ≤ 'Z' then Char.ofNat (c.toNat + 32) else c

/-- JavaScript `toLowerCase()` restricted to ASCII input. -/
def strToLower (s : String) : String :=
  String.mk (s.data.map charToLower)

/-- Drop the leading whitespace that JavaScript numeric parsing skips. -/
def dropWs (cs : List Char) : List Char :=
  match cs with
  | c :: rest => if c == ' ' || c == '\t' || c == '\n' || c == '\r' then dropWs rest else cs
  | [] => []

/-- JavaScript `parseFloat` on a character list: optional sign, then a
decimal-digit prefix with an optional fractional part; trailing characters
are ignored.  `none` models the `NaN` result when no digits are found. -/
def jsParseFloatChars (cs : List Char) : Option ℚ :=
  let sr : Bool × List Char :=
    match cs with
    | '-' :: r => (true, r)
    | '+' :: r => (false, r)
    | r => (false, r)
  let ip := takeDigits sr.2
  match ip.2 with
  | '.' :: r2 =>
    let fp := takeDigits r2
    if ip.1.isEmpty && fp.1.isEmpty then none
    else
      let v : ℚ := (digitsToNat ip.1 : ℚ) + (digitsToNat fp.1 : ℚ) / ((10 : ℚ) ^ fp.1.length)
      some (if sr.1 then -v else v)
  | _ =>
    if ip.1.isEmpty then none
    else some (if sr.1 then -(digitsToNat ip.1 : ℚ) else (digitsToNat ip.1 : ℚ))

/-- JavaScript `parseFloat` on a string (leading whitespace skipped). -/
def jsParseFloat (s : String) : Option ℚ :=
  jsParseFloatChars (dropWs s.data)

/-- JavaScript `parseInt` (radix 10) on a character list: optional sign,
then a decimal-digit prefix; `none` models `NaN`. -/
def jsParseIntChars (cs : List Char) : Option Int :=
  let sr : Bool × List Char :=
    match cs with
    | '-' :: r => (true, r)
    | '+' :: r => (false, r)
    | r => (false, r)
  let ip := takeDigits sr.2
  if ip.1.isEmpty then none
  else some (if sr.1 then -(digitsToNat ip.1 : Int) else (digitsToNat ip.1 : Int))

/-- JavaScript `parseInt` on a string (leading whitespace skipped). -/
def jsParseInt (s : String) : Option Int :=
  jsParseIntChars (dropWs s.data)

/-- Truncation of a rational toward zero, as JavaScript `parseInt` does
when handed a fractional number. -/
def truncQ (q : ℚ) : Int :=
  if 0 ≤ q then ⌊q⌋ else ⌈q⌉

/-- `parseFloat(cell)`: NULL gives `NaN` (`none`), numbers pass through,
strings are parsed leniently. -/
def toNumF : DbVal → Option ℚ
  | .vNull => none
  | .vNum q => some q
  | .vStr s => jsParseFloat s

/-- `parseInt(cell)`: NULL gives `NaN` (`none`), numbers are truncated
toward zero, strings are parsed leniently. -/
def toNumI : DbVal → Option Int
  | .vNull => none
  | .vNum q => some (truncQ q)
  | .vStr s => jsParseInt s

/-- `parseFloat(cell) || 0`: both `NaN` and `0` collapse to `0`. -/
def fOr0 (v : DbVal) : ℚ :=
  (toNumF v).getD 0

/-- `parseInt(cell) || 0`: both `NaN` and `0` collapse to `0`. -/
def iOr0 (v : DbVal) : Int :=
  (toNumI v).getD 0

/-- `cell || ''` on a string column: NULL (and the empty string itself)
give the empty string. -/
def strOrEmpty (o : Option String) : String :=
  o.getD ""

/-- A raw row as selected from `airtel_loan_data` / `MTN_loan_data`
(server.js lines 199-206).  `load_date` is modelled as a (non-null) day
code, `processed_at` as an optional ingestion timestamp; every other
column is a raw driver value. -/
structure RawRow where
  load_date : Nat
  loan_type : Option String
  denom : DbVal
  gross_lent : DbVal
  sfee_lent : DbVal
  lending_txns : DbVal
  late_fees_charged : DbVal
  principal_recovered : DbVal
  sfee_recovered : DbVal
  late_fees_recovered : DbVal
  recovery_txns : DbVal
  interest_fees_charged : DbVal
  interest_fees_recovered : DbVal
  setup_fees_charged : DbVal
  setup_fees_recovered : DbVal
  daily_fees_charged : DbVal
  daily_fees_recovered : DbVal
  country : Option String
  telco : Option String
  qualified_base : DbVal
  overall_actives_daily : DbVal
  overall_actives_wtd : DbVal
  overall_actives_mtd : DbVal
  overall_actives_ytd : DbVal
  processed_at : Option Nat
  file_source : Option String
deriving DecidableEq, Repr

/-- The normalized output record built by `convertToDashboardFormat`
(server.js lines 63-123).  The `date` field keeps the day code (the
`YYYY-MM-DD` rendering is order-isomorphic to it); `processed_at` is the
formatted timestamp or the empty string. -/
structure DashboardRecord where
  date : Nat
  telco : String
  country : String
  loan_type : String
  denom : Int
  qualified_base : Int
  overall_actives_daily : Int
  overall_actives_wtd : ℚ
  overall_actives_mtd : Int
  overall_actives_ytd : Int
  lending_transactions : ℚ
  lending_txns : ℚ
  gross_lent : ℚ
  principal_lent : ℚ
  service_fee_lent : ℚ
  sfee_lent : ℚ
  late_fees_charged : ℚ
  setup_fees_charged : ℚ
  interest_fees_charged : ℚ
  daily_fees_charged : ℚ
  recovery_transactions : ℚ
  recovery_txns : ℚ
  principal_recovered : ℚ
  service_fee_recovered : ℚ
  sfee_recovered : ℚ
  late_fees_recovered : ℚ
  setup_fees_recovered : ℚ
  interest_fees_recovered : ℚ
  daily_fees_recovered : ℚ
  gross_recovered : ℚ
  unique_users : Int
  overall_unique_users : Int
  fx_rate : ℚ
  processed_at : String
  file_source : String

/-- Normalization of one raw row (server.js lines 58-125): field-by-field
transcription of the object literal returned by `convertToDashboardFormat`. -/
def convertOne (r : RawRow) : DashboardRecord :=
  { date := r.load_date
    telco := strOrEmpty r.telco
    country := strOrEmpty r.country
    loan_type := strOrEmpty r.loan_type
    denom := iOr0 r.denom
    qualified_base := iOr0 r.qualified_base
    overall_actives_daily := iOr0 r.overall_actives_daily
    overall_actives_wtd := fOr0 r.overall_actives_wtd
    overall_actives_mtd := iOr0 r.overall_actives_mtd
    overall_actives_ytd := iOr0 r.overall_actives_ytd
    lending_transactions := fOr0 r.lending_txns
    lending_txns := fOr0 r.lending_txns
    gross_lent := fOr0 r.gross_lent
    principal_lent := fOr0 r.gross_lent - fOr0 r.sfee_lent
    service_fee_lent := fOr0 r.sfee_lent
    sfee_lent := fOr0 r.sfee_lent
    late_fees_charged := fOr0 r.late_fees_charged
    setup_fees_charged := fOr0 r.setup_fees_charged
    interest_fees_charged := fOr0 r.interest_fees_charged
    daily_fees_charged := fOr0 r.daily_fees_charged
    recovery_transactions := fOr0 r.recovery_txns
    recovery_txns := fOr0 r.recovery_txns
    principal_recovered := fOr0 r.principal_recovered
    service_fee_recovered := fOr0 r.sfee_recovered
    sfee_recovered := fOr0 r.sfee_recovered
    late_fees_recovered := fOr0 r.late_fees_recovered
    setup_fees_recovered := fOr0 r.setup_fees_recovered
    interest_fees_recovered := fOr0 r.interest_fees_recovered
    daily_fees_recovered := fOr0 r.daily_fees_recovered
    gross_recovered := fOr0 r.principal_recovered + fOr0 r.sfee_recovered +
      fOr0 r.late_fees_recovered + fOr0 r.setup_fees_recovered +
      fOr0 r.interest_fees_recovered + fOr0 r.daily_fees_recovered
    unique_users := iOr0 r.overall_actives_daily
    overall_unique_users := iOr0 r.overall_actives_ytd
    fx_rate := 1
    processed_at :=
      match r.processed_at with
      | none => ""
      | some n => toString n
    file_source := strOrEmpty r.file_source }

/-- `convertToDashboardFormat` maps the normalizer over the result rows. -/
def convertToDashboardFormat (rows : List RawRow) : List DashboardRecord :=
  rows.map convertOne

/-- SQL equality on a nullable string column: a comparison involving NULL
is never TRUE. -/
def sqlEqOptStr : Option String → Option String → Bool
  | some a, some b => a == b
  | _, _ => false

/-- SQL equality on a raw cell: NULL never compares equal, values of the
same shape compare by value. -/
def sqlEqVal : DbVal → DbVal → Bool
  | .vNum a, .vNum b => a == b
  | .vStr a, .vStr b => a == b
  | _, _ => false

/-- The correlated-subquery grouping condition of the latest-snapshot
filter (server.js lines 212-214): `t2.load_date = t1.load_date AND
t2.loan_type = t1.loan_type AND t2.denom = t1.denom`. -/
def keyMatch (r2 r1 : RawRow) : Bool :=
  r2.load_date == r1.load_date &&
  sqlEqOptStr r2.loan_type r1.loan_type &&
  sqlEqVal r2.denom r1.denom

/-- `SELECT MAX(t2.processed_at) FROM table t2 WHERE <key of r>`: the
maximum ingestion timestamp over the rows of the table sharing the key of
`r` (SQL `MAX` ignores NULLs; `none` is the empty-group NULL). -/
def maxProcessedFor (r : RawRow) : List RawRow → Option Nat
  | [] => none
  | r2 :: t =>
    let rest := maxProcessedFor r t
    if keyMatch r2 r then
      match r2.processed_at, rest with
      | none, _ => rest
      | some a, none => some a
      | some a, some m => some (Nat.max a m)
    else rest

/-- `t1.processed_at = (SELECT MAX(t2.processed_at) ...)` (server.js lines
209-215): a row passes when its timestamp is non-NULL and equals the
group maximum. -/
def keepLatest (t : List RawRow) (r : RawRow) : Bool :=
  match r.processed_at, maxProcessedFor r t with
  | some a, some m => a == m
  | _, _ => false

/-- The latest-snapshot restriction of a table, in isolation. -/
def latestSnapshot (t : List RawRow) : List RawRow :=
  t.filter (keepLatest t)

/-- Character-list prefix test. -/
def strStartsWith : List Char → List Char → Bool
  | _, [] => true
  | [], _ :: _ => false
  | c :: cs, p :: ps => c == p && strStartsWith cs ps

/-- Character-list substring test. -/
def strContainsAux : List Char → List Char → Bool
  | [], p => p.isEmpty
  | c :: cs, p => strStartsWith (c :: cs) p || strContainsAux cs p

/-- `col LIKE '%pat%'`: substring match, never TRUE on a NULL column. -/
def sqlLike (col : Option String) (pat : String) : Bool :=
  match col with
  | none => false
  | some s => strContainsAux s.data pat.data

/-- Day code of a `YYYY-MM-DD` date literal (monotone in the date);
malformed input maps to 0. -/
def dateCode (s : String) : Nat :=
  match (s.splitOn "-").map jsParseInt with
  | [some y, some m, some d] => y.toNat * 10000 + m.toNat * 100 + d.toNat
  | _ => 0

/-- The date predicate attached to a loan-data query: either
`load_date BETWEEN ? AND ?` or `load_date >= DATE_SUB(CURDATE(),
INTERVAL ? DAY)`. -/
inductive DateFilter where
  | between (s e : String)
  | window (days : Int)
deriving DecidableEq, Repr

/-- Evaluation of the date predicate on a row, relative to the store's
current date `today`. -/
def rowMatchesDate (today : Nat) : DateFilter → RawRow → Bool
  | .between s e, r => decide (dateCode s ≤ r.load_date) && decide (r.load_date ≤ dateCode e)
  | .window d, r => decide ((today : Int) - d ≤ (r.load_date : Int))

/-- JavaScript truthiness of an optional query-string parameter: absent
and empty are falsy. -/
def jsTruthy : Option String → Bool
  | none => false
  | some s => !(s == "")

/-- JavaScript `x || d` on a parsed integer: `NaN` (`none`) and `0` are
falsy and give the default. -/
def jsOrInt (o : Option Int) (d : Int) : Int :=
  match o with
  | none => d
  | some n => if n = 0 then d else n

/-- `parseInt(days) || 7` with destructuring default `days = '7'`
(server.js lines 142 and 173): effective window of `/api/loan-data`. -/
def effDaysGeneral (days : Option String) : Int :=
  jsOrInt (jsParseInt (days.getD "7")) 7

/-- `parseInt(days) || 7` with destructuring default `days = '7'`
(server.js lines 257 and 299): effective window of
`/api/loan-data/:loanType`. -/
def effDaysPerType (days : Option String) : Int :=
  jsOrInt (jsParseInt (days.getD "7")) 7

/-- The summary endpoint's window parameter (server.js lines 371 and
403): destructuring default `days = '30'`, then bare `parseInt(days)`
bound into the query with no fallback, so `none` (`NaN`) flows to the
driver untouched. -/
def summaryWindowParam (days : Option String) : Option Int :=
  jsParseInt (days.getD "30")

/-- Query-string parameters of `GET /api/loan-data` (server.js lines
139-146), all optional; destructuring defaults are applied at use sites. -/
structure LoanQueryParams where
  loan_type : Option String
  telco : Option String
  days : Option String
  start_date : Option String
  end_date : Option String
  limit : Option String
deriving DecidableEq, Repr

/-- Query-string parameters of `GET /api/loan-data/:loanType` (server.js
lines 255-261). -/
structure TypeQueryParams where
  telco : Option String
  days : Option String
  start_date : Option String
  end_date : Option String
  limit : Option String
deriving DecidableEq, Repr

/-- Date-branch selection of `/api/loan-data` (server.js lines 169-176):
the BETWEEN branch is taken only when both `start_date` and `end_date`
are truthy, otherwise the trailing window applies. -/
def dateFilterGeneral (p : LoanQueryParams) : DateFilter :=
  if jsTruthy p.start_date && jsTruthy p.end_date then
    DateFilter.between (p.start_date.getD "") (p.end_date.getD "")
  else DateFilter.window (effDaysGeneral p.days)

/-- Date-branch selection of `/api/loan-data/:loanType` (server.js lines
295-302), identical in structure to the general endpoint. -/
def dateFilterPerType (q : TypeQueryParams) : DateFilter :=
  if jsTruthy q.start_date && jsTruthy q.end_date then
    DateFilter.between (q.start_date.getD "") (q.end_date.getD "")
  else DateFilter.window (effDaysPerType q.days)

/-- The redundant in-SQL operator predicate (server.js lines 185-190 and
305-309): an equality-or-case-variant check on the stored `telco` column
when filtering to a single operator. -/
def telcoRedundant (telco : String) (r : RawRow) : Bool :=
  if strToLower telco = "airtel" then
    sqlEqOptStr r.telco (some "Airtel") || sqlEqOptStr r.telco (some "airtel")
  else if strToLower telco = "mtn" then
    sqlEqOptStr r.telco (some "MTN") || sqlEqOptStr r.telco (some "mtn")
  else true

/-- WHERE clause of the general endpoint (server.js lines 164-192): date
predicate, optional `loan_type LIKE '%..%'` when the parameter is truthy,
and the redundant operator predicate. -/
def generalWhere (p : LoanQueryParams) (today : Nat) (r : RawRow) : Bool :=
  rowMatchesDate today (dateFilterGeneral p) r &&
  (if jsTruthy p.loan_type then sqlLike r.loan_type (p.loan_type.getD "") else true) &&
  telcoRedundant ((p.telco.getD "both")) r

/-- WHERE clause of the per-type endpoint (server.js lines 290-311):
mandatory `loan_type LIKE '%dbLoanType%'`, date predicate, redundant
operator predicate. -/
def typeWhere (dbLoanType : String) (q : TypeQueryParams) (today : Nat) (r : RawRow) : Bool :=
  sqlLike r.loan_type dbLoanType &&
  rowMatchesDate today (dateFilterPerType q) r &&
  telcoRedundant ((q.telco.getD "both")) r

/-- Ordering on nullable strings used for `ORDER BY loan_type`: NULLs
sort first, strings lexically. -/
def optStrLe : Option String → Option String → Prop
  | none, _ => True
  | some _, none => False
  | some a, some b => a ≤ b

instance : ∀ a b, Decidable (optStrLe a b) := fun a b =>
  match a, b with
  | none, _ => isTrue trivial
  | some _, none => isFalse id
  | some x, some y => inferInstanceAs (Decidable (x ≤ y))

/-- `ORDER BY load_date DESC, loan_type` of the general endpoint
(server.js line 216). -/
def rawOrdGeneral (a b : RawRow) : Prop :=
  b.load_date < a.load_date ∨ (a.load_date = b.load_date ∧ optStrLe a.loan_type b.loan_type)

instance : ∀ a b, Decidable (rawOrdGeneral a b) := fun a b =>
  inferInstanceAs (Decidable (b.load_date < a.load_date ∨
    (a.load_date = b.load_date ∧ optStrLe a.loan_type b.loan_type)))

/-- `ORDER BY load_date DESC` of the per-type endpoint (server.js line
332). -/
def rawOrdDate (a b : RawRow) : Prop :=
  b.load_date ≤ a.load_date

instance : ∀ a b, Decidable (rawOrdDate a b) := fun a b =>
  Nat.decLe b.load_date a.load_date

/-- The JavaScript merge comparator `(a, b) => new Date(b.date) - new
Date(a.date)` (server.js lines 231 and 347): date descending. -/
def dashDateDesc (a b : DashboardRecord) : Prop :=
  b.date ≤ a.date

instance : ∀ a b, Decidable (dashDateDesc a b) := fun a b =>
  Nat.decLe b.date a.date

instance : IsTotal DashboardRecord dashDateDesc :=
  ⟨fun a b => (Nat.le_total b.date a.date).imp id id⟩

instance : IsTrans DashboardRecord dashDateDesc :=
  ⟨fun _ _ _ h1 h2 => Nat.le_trans h2 h1⟩

/-- One SELECT of the general endpoint (server.js lines 198-218): rows
satisfying the WHERE clause and the latest-snapshot condition, ordered by
`load_date DESC, loan_type`, truncated to the LIMIT. -/
def sqlSelectGeneral (t : List RawRow) (w : RawRow → Bool) (lim : Nat) : List RawRow :=
  List.take lim (List.insertionSort rawOrdGeneral (t.filter (fun r => w r && keepLatest t r)))

/-- One SELECT of the per-type endpoint (server.js lines 314-333), same
shape with `ORDER BY load_date DESC` only. -/
def sqlSelectPerType (t : List RawRow) (w : RawRow → Bool) (lim : Nat) : List RawRow :=
  List.take lim (List.insertionSort rawOrdDate (t.filter (fun r => w r && keepLatest t r)))

/-- The two physical source tables. -/
inductive TableId where
  | airtel
  | mtn
deriving DecidableEq, Repr

/-- Table selection of the general and per-type endpoints (server.js
lines 149-158 and 277-286): a strict if/else-if chain on the lowercased
operator filter; anything else selects no table. -/
def tablesForTelco (telco : String) : List TableId :=
  if strToLower telco = "airtel" then [TableId.airtel]
  else if strToLower telco = "mtn" then [TableId.mtn]
  else if strToLower telco = "both" then [TableId.airtel, TableId.mtn]
  else []

/-- Contents of a physical table. -/
def tableOf (dbA dbM : List RawRow) : TableId → List RawRow
  | TableId.airtel => dbA
  | TableId.mtn => dbM

/-- The responses the loan-data handlers can produce: an HTTP 400 with a
message, an HTTP 500 with a message, or the data payload (whose `count`
field is the length of `data`). -/
inductive ApiResponse where
  | clientError (msg : String)
  | serverError (msg : String)
  | loanData (data : List DashboardRecord)

/-- One table's contribution to the general endpoint: SELECT then
normalize. -/
def perTableGeneral (db : List RawRow) (p : LoanQueryParams) (today : Nat) (lim : Nat) :
    List DashboardRecord :=
  convertToDashboardFormat (sqlSelectGeneral db (generalWhere p today) lim)

/-- Handler of `GET /api/loan-data` (server.js lines 137-249), paired
with the list of tables actually queried.  An empty table selection is
rejected with HTTP 400 before any query is issued (lines 160-162).  A
limit parameter that parses to `NaN` cannot be bound by the driver, and
a negative one makes MySQL reject the `LIMIT` clause; either
data-access failure surfaces as the HTTP 500 branch (lines 245-248). -/
def loanDataHandler (dbA dbM : List RawRow) (today : Nat) (p : LoanQueryParams) :
    ApiResponse × List TableId :=
  let tables := tablesForTelco (p.telco.getD "both")
  if tables = [] then (ApiResponse.clientError "Invalid telco parameter", [])
  else
    match jsParseInt (p.limit.getD "1000") with
    | none => (ApiResponse.serverError "Database query failed", tables)
    | some lim =>
      if lim < 0 then (ApiResponse.serverError "Database query failed", tables)
      else
        let all := (tables.map (fun tid => perTableGeneral (tableOf dbA dbM tid) p today lim.toNat)).flatten
        (ApiResponse.loanData (List.insertionSort dashDateDesc all), tables)

/-- The path-segment map of `/api/loan-data/:loanType` (server.js lines
264-269). -/
def loanTypeMap : String → Option String
  | "7" => some "Nano 7D"
  | "14" => some "Nano 14D"
  | "21" => some "Nano 21D"
  | "30" => some "Nano 30D"
  | _ => none

/-- One table's contribution to the per-type endpoint. -/
def perTableType (db : List RawRow) (dbLoanType : String) (q : TypeQueryParams)
    (today : Nat) (lim : Nat) : List DashboardRecord :=
  convertToDashboardFormat (sqlSelectPerType db (typeWhere dbLoanType q today) lim)

/-- Handler of `GET /api/loan-data/:loanType` (server.js lines 252-366),
paired with the tables actually queried.  Unlike the general endpoint it
performs no emptiness check on the table selection: an unrecognized
operator filter runs the loop zero times and answers HTTP 200 with an
empty payload.  A `NaN` or negative limit fails at the driver (MySQL
rejects a negative `LIMIT`), but only when at least one query is
attempted. -/
def loanTypeHandler (dbA dbM : List RawRow) (today : Nat) (loanType : String)
    (q : TypeQueryParams) : ApiResponse × List TableId :=
  match loanTypeMap loanType with
  | none => (ApiResponse.clientError "Invalid loan type", [])
  | some dbLoanType =>
    let tables := tablesForTelco (q.telco.getD "both")
    match jsParseInt (q.limit.getD "500") with
    | none =>
      if tables = [] then (ApiResponse.loanData [], [])
      else (ApiResponse.serverError "Database query failed", tables)
    | some lim =>
      if lim < 0 then
        if tables = [] then (ApiResponse.loanData [], [])
        else (ApiResponse.serverError "Database query failed", tables)
      else
        let all := (tables.map (fun tid =>
          perTableType (tableOf dbA dbM tid) dbLoanType q today lim.toNat)).flatten
        (ApiResponse.loanData (List.insertionSort dashDateDesc all), tables)

/-- A segment of an Express route pattern: a literal, or a named path
parameter (which matches any non-empty segment). -/
inductive Seg where
  | lit (s : String)
  | param
deriving DecidableEq, Repr

/-- Whether one pattern segment accepts one path segment. -/
def segMatches : Seg → String → Bool
  | Seg.lit s, x => s == x
  | Seg.param, x => !(x == "")

/-- Whether a route pattern accepts a path, segment by segment. -/
def patMatches : List Seg → List String → Bool
  | [], [] => true
  | s :: ps, x :: xs => segMatches s x && patMatches ps xs
  | _, _ => false

/-- Names for the registered GET routes. -/
inductive RouteId where
  | health
  | loanData
  | loanDataByType
  | loanDataSummary
  | nplData
  | statusRoute
deriving DecidableEq, Repr

/-- The GET routes in registration order (server.js lines 128, 137, 252,
369, 430, 518): `/api/loan-data/:loanType` is registered before
`/api/loan-data/summary`. -/
def routeTable : List (RouteId × List Seg) :=
  [ (RouteId.health, [Seg.lit "api", Seg.lit "health"]),
    (RouteId.loanData, [Seg.lit "api", Seg.lit "loan-data"]),
    (RouteId.loanDataByType, [Seg.lit "api", Seg.lit "loan-data", Seg.param]),
    (RouteId.loanDataSummary, [Seg.lit "api", Seg.lit "loan-data", Seg.lit "summary"]),
    (RouteId.nplData, [Seg.lit "api", Seg.lit "npl-data"]),
    (RouteId.statusRoute, [Seg.lit "api", Seg.lit "status"]) ]

/-- Express dispatch: the first registered route whose pattern matches
the path handles the request. -/
def dispatch (path : List String) : Option RouteId :=
  (routeTable.find? (fun rp => patMatches rp.2 path)).map (fun rp => rp.1)

/-- A row of the NPL result set; only the fields involved in the claims
about ordering are carried. -/
structure NplRow where
  loan_type : String
  total_balance : ℚ
  within_tenure : ℚ
  report_date : Nat
deriving DecidableEq, Repr

/-- The `CASE o.loan_type ... END` sort key of the NPL query (server.js
lines 462-470). -/
def nplRank (lt : String) : Nat :=
  if lt = "7 Days Loan" then 1
  else if lt = "14 Days Loan" then 2
  else if lt = "21 Days Loan" then 3
  else if lt = "30 Days Loan" then 4
  else if lt = "Grand Total" then 5
  else 6

/-- The NPL `ORDER BY` relation: ascending in the CASE rank. -/
def nplLe (a b : NplRow) : Prop :=
  nplRank a.loan_type ≤ nplRank b.loan_type

instance : ∀ a b, Decidable (nplLe a b) := fun a b =>
  Nat.decLe (nplRank a.loan_type) (nplRank b.loan_type)

instance : IsTotal NplRow nplLe :=
  ⟨fun a b => Nat.le_total (nplRank a.loan_type) (nplRank b.loan_type)⟩

instance : IsTrans NplRow nplLe :=
  ⟨fun _ _ _ h1 h2 => Nat.le_trans h1 h2⟩

/-- Strict version of the NPL ordering, used to pin the output order down
uniquely when all ranks are distinct. -/
def nplLt (a b : NplRow) : Prop :=
  nplRank a.loan_type < nplRank b.loan_type

instance : ∀ a b, Decidable (nplLt a b) := fun a b =>
  Nat.decLt (nplRank a.loan_type) (nplRank b.loan_type)

instance : IsAntisymm NplRow nplLt :=
  ⟨fun _ _ h1 h2 => absurd (Nat.lt_trans h1 h2) (Nat.lt_irrefl _)⟩

/-- The ordering the NPL endpoint applies to its result set. -/
def nplSort (l : List NplRow) : List NplRow :=
  List.insertionSort nplLe l

/-- The monetary (fractional) output fields of a `DashboardRecord` that
are read directly from one source column through `parseFloat(...) || 0`
(the derived `principal_lent` and `gross_recovered` are treated
separately). -/
inductive MoneyField where
  | overallActivesWtd
  | lendingTransactions
  | lendingTxns
  | grossLent
  | serviceFeeLent
  | sfeeLent
  | lateFeesCharged
  | setupFeesCharged
  | interestFeesCharged
  | dailyFeesCharged
  | recoveryTransactions
  | recoveryTxns
  | principalRecovered
  | serviceFeeRecovered
  | sfeeRecovered
  | lateFeesRecovered
  | setupFeesRecovered
  | interestFeesRecovered
  | dailyFeesRecovered
deriving DecidableEq, Repr

/-- The source column each monetary output field is read from. -/
def moneySrc : MoneyField → RawRow → DbVal
  | .overallActivesWtd, r => r.overall_actives_wtd
  | .lendingTransactions, r => r.lending_txns
  | .lendingTxns, r => r.lending_txns
  | .grossLent, r => r.gross_lent
  | .serviceFeeLent, r => r.sfee_lent
  | .sfeeLent, r => r.sfee_lent
  | .lateFeesCharged, r => r.late_fees_charged
  | .setupFeesCharged, r => r.setup_fees_charged
  | .interestFeesCharged, r => r.interest_fees_charged
  | .dailyFeesCharged, r => r.daily_fees_charged
  | .recoveryTransactions, r => r.recovery_txns
  | .recoveryTxns, r => r.recovery_txns
  | .principalRecovered, r => r.principal_recovered
  | .serviceFeeRecovered, r => r.sfee_recovered
  | .sfeeRecovered, r => r.sfee_recovered
  | .lateFeesRecovered, r => r.late_fees_recovered
  | .setupFeesRecovered, r => r.setup_fees_recovered
  | .interestFeesRecovered, r => r.interest_fees_recovered
  | .dailyFeesRecovered, r => r.daily_fees_recovered

/-- Projection of a monetary output field from the normalized record. -/
def moneyOut : MoneyField → DashboardRecord → ℚ
  | .overallActivesWtd, d => d.overall_actives_wtd
  | .lendingTransactions, d => d.lending_transactions
  | .lendingTxns, d => d.lending_txns
  | .grossLent, d => d.gross_lent
  | .serviceFeeLent, d => d.service_fee_lent
  | .sfeeLent, d => d.sfee_lent
  | .lateFeesCharged, d => d.late_fees_charged
  | .setupFeesCharged, d => d.setup_fees_charged
  | .interestFeesCharged, d => d.interest_fees_charged
  | .dailyFeesCharged, d => d.daily_fees_charged
  | .recoveryTransactions, d => d.recovery_transactions
  | .recoveryTxns, d => d.recovery_txns
  | .principalRecovered, d => d.principal_recovered
  | .serviceFeeRecovered, d => d.service_fee_recovered
  | .sfeeRecovered, d => d.sfee_recovered
  | .lateFeesRecovered, d => d.late_fees_recovered
  | .setupFeesRecovered, d => d.setup_fees_recovered
  | .interestFeesRecovered, d => d.interest_fees_recovered
  | .dailyFeesRecovered, d => d.daily_fees_recovered

/-- The string output fields defaulting through `|| ''`. -/
inductive StrField where
  | telcoField
  | countryField
  | loanTypeField
  | fileSourceField
deriving DecidableEq, Repr

/-- The source column of each string output field. -/
def strSrc : StrField → RawRow → Option String
  | .telcoField, r => r.telco
  | .countryField, r => r.country
  | .loanTypeField, r => r.loan_type
  | .fileSourceField, r => r.file_source

/-- Projection of a string output field from the normalized record. -/
def strOut : StrField → DashboardRecord → String
  | .telcoField, d => d.telco
  | .countryField, d => d.country
  | .loanTypeField, d => d.loan_type
  | .fileSourceField, d => d.file_source

/-- A raw row with every nullable column NULL. -/
def nullRow : RawRow where
  load_date := 0
  loan_type := none
  denom := DbVal.vNull
  gross_lent := DbVal.vNull
  sfee_lent := DbVal.vNull
  lending_txns := DbVal.vNull
  late_fees_charged := DbVal.vNull
  principal_recovered := DbVal.vNull
  sfee_recovered := DbVal.vNull
  late_fees_recovered := DbVal.vNull
  recovery_txns := DbVal.vNull
  interest_fees_charged := DbVal.vNull
  interest_fees_recovered := DbVal.vNull
  setup_fees_charged := DbVal.vNull
  setup_fees_recovered := DbVal.vNull
  daily_fees_charged := DbVal.vNull
  daily_fees_recovered := DbVal.vNull
  country := none
  telco := none
  qualified_base := DbVal.vNull
  overall_actives_daily := DbVal.vNull
  overall_actives_wtd := DbVal.vNull
  overall_actives_mtd := DbVal.vNull
  overall_actives_ytd := DbVal.vNull
  processed_at := none
  file_source := none

/-- A row whose service fee exceeds its gross lent amount. -/
def negRow : RawRow :=
  { nullRow with gross_lent := DbVal.vNum 3, sfee_lent := DbVal.vNum 5 }

/-- Two snapshots of the same `(load_date, loan_type, denom)` key with
ingestion timestamps 1 and 2, and a same-key row for the other table with
timestamp 99. -/
def snapRow1 : RawRow :=
  { nullRow with
      load_date := 10
      loan_type := some "Nano 7D"
      denom := DbVal.vStr "500"
      processed_at := some 1 }

def snapRow2 : RawRow :=
  { nullRow with
      load_date := 10
      loan_type := some "Nano 7D"
      denom := DbVal.vStr "500"
      processed_at := some 2 }

def snapRowB : RawRow :=
  { nullRow with
      load_date := 10
      loan_type := some "Nano 7D"
      denom := DbVal.vStr "500"
      processed_at := some 99 }

/-- Sample request parameters: `telco=both`, everything else absent. -/
def pBoth : LoanQueryParams :=
  { loan_type := none, telco := some "both", days := none,
    start_date := none, end_date := none, limit := none }

/-- Sample request parameters with an unrecognized operator filter. -/
def pVodacom : LoanQueryParams :=
  { loan_type := none, telco := some "Vodacom", days := none,
    start_date := none, end_date := none, limit := none }

/-- Per-type request parameters with an unrecognized operator filter. -/
def qVodacom : TypeQueryParams :=
  { telco := some "Vodacom", days := none, start_date := none,
    end_date := none, limit := none }

/-- Request parameters supplying only a start date. -/
def pStartOnly : LoanQueryParams :=
  { loan_type := none, telco := none, days := none,
    start_date := some "2025-08-01", end_date := none, limit := none }

/-- Per-type request parameters supplying only an end date. -/
def qEndOnly : TypeQueryParams :=
  { telco := none, days := none, start_date := none,
    end_date := some "2025-08-06", limit := none }

/-- Sample table contents for the merged-query witness. -/
def c6RowA : RawRow :=
  { nullRow with
      load_date := 20
      loan_type := some "Nano 7D"
      denom := DbVal.vStr "5"
      telco := some "Airtel"
      processed_at := some 5 }

def c6RowM : RawRow :=
  { nullRow with
      load_date := 30
      loan_type := some "Nano 14D"
      denom := DbVal.vStr "10"
      telco := some "MTN"
      processed_at := some 6 }

/-- NPL rows for the five named categories and one extra category. -/
def npl7 : NplRow := { loan_type := "7 Days Loan", total_balance := 0, within_tenure := 0, report_date := 0 }

def npl14 : NplRow := { loan_type := "14 Days Loan", total_balance := 0, within_tenure := 0, report_date := 0 }

def npl21 : NplRow := { loan_type := "21 Days Loan", total_balance := 0, within_tenure := 0, report_date := 0 }

def npl30 : NplRow := { loan_type := "30 Days Loan", total_balance := 0, within_tenure := 0, report_date := 0 }

def nplGT : NplRow := { loan_type := "Grand Total", total_balance := 0, within_tenure := 0, report_date := 0 }

def nplX : NplRow := { loan_type := "Kamba Loan", total_balance := 0, within_tenure := 0, report_date := 0 }

/-- Every row of a table matching the key of `r` bounds the group maximum
from below, and makes it defined. -/
theorem le_maxProcessedFor (r : RawRow) :
    ∀ (t : List RawRow) (r2 : RawRow) (b : Nat), r2 ∈ t → keyMatch r2 r = true →
      r2.processed_at = some b → ∃ m, maxProcessedFor r t = some m ∧ b ≤ m := by
  intro t
  induction t with
  | nil => intro r2 b hm _ _; cases hm
  | cons hd tl ih =>
    intro r2 b hm hk hp
    rcases List.mem_cons.mp hm with heq | hm2
    · subst heq
      cases hrest : maxProcessedFor r tl with
      | none => exact ⟨b, by simp [maxProcessedFor, hk, hp, hrest], Nat.le_refl b⟩
      | some m =>
        exact ⟨Nat.max b m, by simp [maxProcessedFor, hk, hp, hrest], Nat.le_max_left b m⟩
    · obtain ⟨m, hrest, hbm⟩ := ih r2 b hm2 hk hp
      by_cases hkh : keyMatch hd r = true
      · cases hph : hd.processed_at with
        | none => exact ⟨m, by simp [maxProcessedFor, hkh, hph, hrest], hbm⟩
        | some a =>
          exact ⟨Nat.max a m, by simp [maxProcessedFor, hkh, hph, hrest],
            Nat.le_trans hbm (Nat.le_max_right a m)⟩
      · exact ⟨m, by simp [maxProcessedFor, hkh, hrest], hbm⟩

/-- The telco if/else-if chain selects both tables exactly when the
lowered filter is `both`. -/
theorem tablesForTelco_of_both (s : String) (h : strToLower s = "both") :
    tablesForTelco s = [TableId.airtel, TableId.mtn] := by
  simp [tablesForTelco, h]

/-- The telco chain selects no table when the lowered filter is
unrecognized. -/
theorem tablesForTelco_of_invalid (s : String) (h1 : strToLower s ≠ "airtel")
    (h2 : strToLower s ≠ "mtn") (h3 : strToLower s ≠ "both") :
    tablesForTelco s = [] := by
  simp [tablesForTelco, h1, h2, h3]

/-- Claim C1: for every raw input row, the normalized `gross_recovered`
equals exactly the sum of the six recovery components (each null or
non-numeric component counting as 0, the all-zero case included), and it
differs from `principal_recovered + sfee_recovered` by exactly the four
fee-recovered components, so it is never just those two when any other
component is non-zero. -/
theorem grossRecovered_eq_sum_of_six (r : RawRow) :
    (convertOne r).gross_recovered =
      (convertOne r).principal_recovered + (convertOne r).sfee_recovered +
      (convertOne r).late_fees_recovered + (convertOne r).setup_fees_recovered +
      (convertOne r).interest_fees_recovered + (convertOne r).daily_fees_recovered ∧
    (convertOne r).gross_recovered -
        ((convertOne r).principal_recovered + (convertOne r).sfee_recovered) =
      (convertOne r).late_fees_recovered + (convertOne r).setup_fees_recovered +
      (convertOne r).interest_fees_recovered + (convertOne r).daily_fees_recovered := by
  constructor
  · rfl
  · simp only [convertOne]
    ring

/-- Claim C2: a GET request for `/loan-data/summary` is captured by the
earlier-registered `/api/loan-data/:loanType` route with
`loanType = "summary"`, which is not in the loan-type map, so every such
request is answered with the client error `Invalid loan type` instead of
the aggregated summary payload: the summary handler never serves it. -/
theorem summary_route_shadowed (dbA dbM : List RawRow) (today : Nat) (q : TypeQueryParams) :
    dispatch ["api", "loan-data", "summary"] = some RouteId.loanDataByType ∧
    RouteId.loanDataByType ≠ RouteId.loanDataSummary ∧
    (loanTypeHandler dbA dbM today "summary" q).1 =
      ApiResponse.clientError "Invalid loan type" :=
  ⟨by decide, by decide, rfl⟩

/-- Claim C3: for every raw input row, each directly-mapped monetary
output field equals the lenient parse of its source cell with 0 as the
NaN default, hence is exactly 0 when the source is null or non-numeric
and is always a defined (non-null, non-NaN) rational; string fields
default to the empty string on NULL; the derived `principal_lent` and
`gross_recovered` are 0 when all their source components are null or
non-numeric. -/
theorem null_coercion (r : RawRow) :
    (∀ f : MoneyField, moneyOut f (convertOne r) = (toNumF (moneySrc f r)).getD 0) ∧
    (∀ f : MoneyField, toNumF (moneySrc f r) = none → moneyOut f (convertOne r) = 0) ∧
    (∀ g : StrField, strSrc g r = none → strOut g (convertOne r) = "") ∧
    (toNumF r.gross_lent = none → toNumF r.sfee_lent = none →
      (convertOne r).principal_lent = 0) ∧
    (toNumF r.principal_recovered = none → toNumF r.sfee_recovered = none →
      toNumF r.late_fees_recovered = none → toNumF r.setup_fees_recovered = none →
      toNumF r.interest_fees_recovered = none → toNumF r.daily_fees_recovered = none →
      (convertOne r).gross_recovered = 0) := by
  refine ⟨?_, ?_, ?_, ?_, ?_⟩
  · intro f; cases f <;> rfl
  · intro f h; cases f <;> simp_all [moneyOut, moneySrc, convertOne, fOr0]
  · intro g h; cases g <;> simp_all [strOut, strSrc, convertOne, strOrEmpty]
  · intro h1 h2; simp [convertOne, fOr0, h1, h2]
  · intro h1 h2 h3 h4 h5 h6; simp [convertOne, fOr0, h1, h2, h3, h4, h5, h6]

/-- Claim C3 witness: the all-NULL row maps to 0 and the empty string. -/
theorem null_coercion_wit :
    moneyOut MoneyField.grossLent (convertOne nullRow) = 0 ∧
    strOut StrField.telcoField (convertOne nullRow) = "" :=
  ⟨(null_coercion nullRow).2.1 MoneyField.grossLent (by decide),
   (null_coercion nullRow).2.2.1 StrField.telcoField (by decide)⟩

/-- Claim C4: for every raw input row, `principal_lent` is computed as
`gross_lent - sfee_lent` (nulls as 0), and is strictly negative whenever
the service fee exceeds the gross amount: no clamping to zero occurs. -/
theorem principalLent_eq_gross_sub_sfee (r : RawRow) :
    (convertOne r).principal_lent = (convertOne r).gross_lent - (convertOne r).sfee_lent ∧
    ((convertOne r).gross_lent < (convertOne r).sfee_lent → (convertOne r).principal_lent < 0) := by
  refine ⟨rfl, fun h => ?_⟩
  simp only [convertOne] at h ⊢
  linarith

/-- Claim C4 witness: a row with `gross_lent = 3`, `sfee_lent = 5` yields
a negative `principal_lent`. -/
theorem principalLent_eq_gross_sub_sfee_wit :
    (convertOne negRow).principal_lent =
      (convertOne negRow).gross_lent - (convertOne negRow).sfee_lent ∧
    (convertOne negRow).principal_lent < 0 :=
  ⟨(principalLent_eq_gross_sub_sfee negRow).1,
   (principalLent_eq_gross_sub_sfee negRow).2
     (by norm_num [convertOne, fOr0, toNumF, negRow, nullRow])⟩

/-- Claim C5: when two rows of the same table share the
`(load_date, loan_type, denom)` key with ingestion timestamps `a < b`,
the row with timestamp `a` is never in the latest-snapshot restriction;
the row holding the group maximum is, and it remains in the merged
restriction no matter what the other table `B` contains (the
deduplication is scoped to one table, never across tables). -/
theorem latestSnapshot_keeps_only_max (A B : List RawRow) (r1 r2 : RawRow) (a b : Nat)
    (h1 : r1 ∈ A) (h2 : r2 ∈ A) (hk : keyMatch r2 r1 = true)
    (hp1 : r1.processed_at = some a) (hp2 : r2.processed_at = some b) (hab : a < b) :
    r1 ∉ latestSnapshot A ∧
    (maxProcessedFor r2 A = some b →
      r2 ∈ latestSnapshot A ∧ r2 ∈ latestSnapshot A ++ latestSnapshot B) := by
  obtain ⟨m, hmax, hbm⟩ := le_maxProcessedFor r1 A r2 b h2 hk hp2
  constructor
  · intro hmem
    have hkeep := (List.mem_filter.mp hmem).2
    simp [keepLatest, hp1, hmax] at hkeep
    omega
  · intro hmax2
    have hkeep : keepLatest A r2 = true := by simp [keepLatest, hp2, hmax2]
    have hmem : r2 ∈ latestSnapshot A := List.mem_filter.mpr ⟨h2, hkeep⟩
    exact ⟨hmem, List.mem_append_left _ hmem⟩

/-- Claim C5 witness: two snapshots with timestamps 1 and 2 of one key;
only the later survives, even with a timestamp-99 row in the other
table. -/
theorem latestSnapshot_keeps_only_max_wit :
    snapRow1 ∉ latestSnapshot [snapRow1, snapRow2] ∧
    (snapRow2 ∈ latestSnapshot [snapRow1, snapRow2] ∧
      snapRow2 ∈ latestSnapshot [snapRow1, snapRow2] ++ latestSnapshot [snapRowB]) :=
  ⟨(latestSnapshot_keeps_only_max [snapRow1, snapRow2] [snapRowB] snapRow1 snapRow2 1 2
      (by decide) (by decide) (by decide) rfl rfl (by decide)).1,
   (latestSnapshot_keeps_only_max [snapRow1, snapRow2] [snapRowB] snapRow1 snapRow2 1 2
      (by decide) (by decide) (by decide) rfl rfl (by decide)).2 (by decide)⟩

/-- Claim C6: with `telco=both` and a numeric non-negative limit (a
`NaN` or negative limit is a driver error instead), the general handler
returns the date-descending sort of the concatenation of the two
independently-limited per-table results; its size is the sum of the two
per-table sizes, each separately bounded by the limit, and the merged
sequence is sorted by date descending while remaining a permutation of
the concatenation. -/
theorem both_merge_counts_and_sort (dbA dbM : List RawRow) (today : Nat)
    (p : LoanQueryParams) (L : Int)
    (htel : strToLower (p.telco.getD "both") = "both")
    (hlim : jsParseInt (p.limit.getD "1000") = some L) (hpos : 0 ≤ L) :
    (loanDataHandler dbA dbM today p).1 =
      ApiResponse.loanData (List.insertionSort dashDateDesc
        (perTableGeneral dbA p today L.toNat ++ perTableGeneral dbM p today L.toNat)) ∧
    (List.insertionSort dashDateDesc
        (perTableGeneral dbA p today L.toNat ++ perTableGeneral dbM p today L.toNat)).length =
      (perTableGeneral dbA p today L.toNat).length +
      (perTableGeneral dbM p today L.toNat).length ∧
    (perTableGeneral dbA p today L.toNat).length ≤ L.toNat ∧
    (perTableGeneral dbM p today L.toNat).length ≤ L.toNat ∧
    List.Sorted dashDateDesc (List.insertionSort dashDateDesc
      (perTableGeneral dbA p today L.toNat ++ perTableGeneral dbM p today L.toNat)) ∧
    (List.insertionSort dashDateDesc
        (perTableGeneral dbA p today L.toNat ++ perTableGeneral dbM p today L.toNat)).Perm
      (perTableGeneral dbA p today L.toNat ++ perTableGeneral dbM p today L.toNat) := by
  have htab := tablesForTelco_of_both _ htel
  have hneg : ¬L < 0 := by omega
  have hlen : ∀ db, (perTableGeneral db p today L.toNat).length ≤ L.toNat := by
    intro db
    simp only [perTableGeneral, convertToDashboardFormat, sqlSelectGeneral,
      List.length_map, List.length_take]
    omega
  refine ⟨?_, ?_, hlen dbA, hlen dbM, List.sorted_insertionSort dashDateDesc _,
    List.perm_insertionSort dashDateDesc _⟩
  · simp [loanDataHandler, htab, hlim, hneg, tableOf]
  · rw [(List.perm_insertionSort dashDateDesc _).length_eq, List.length_append]

/-- Claim C6 witness: one row per table, `telco=both`, default limit. -/
theorem both_merge_counts_and_sort_wit :
    (loanDataHandler [c6RowA] [c6RowM] 100 pBoth).1 =
      ApiResponse.loanData (List.insertionSort dashDateDesc
        (perTableGeneral [c6RowA] pBoth 100 (1000 : Int).toNat ++
         perTableGeneral [c6RowM] pBoth 100 (1000 : Int).toNat)) ∧
    (List.insertionSort dashDateDesc
        (perTableGeneral [c6RowA] pBoth 100 (1000 : Int).toNat ++
         perTableGeneral [c6RowM] pBoth 100 (1000 : Int).toNat)).length =
      (perTableGeneral [c6RowA] pBoth 100 (1000 : Int).toNat).length +
      (perTableGeneral [c6RowM] pBoth 100 (1000 : Int).toNat).length ∧
    (perTableGeneral [c6RowA] pBoth 100 (1000 : Int).toNat).length ≤ (1000 : Int).toNat ∧
    (perTableGeneral [c6RowM] pBoth 100 (1000 : Int).toNat).length ≤ (1000 : Int).toNat ∧
    List.Sorted dashDateDesc (List.insertionSort dashDateDesc
      (perTableGeneral [c6RowA] pBoth 100 (1000 : Int).toNat ++
       perTableGeneral [c6RowM] pBoth 100 (1000 : Int).toNat)) ∧
    (List.insertionSort dashDateDesc
        (perTableGeneral [c6RowA] pBoth 100 (1000 : Int).toNat ++
         perTableGeneral [c6RowM] pBoth 100 (1000 : Int).toNat)).Perm
      (perTableGeneral [c6RowA] pBoth 100 (1000 : Int).toNat ++
       perTableGeneral [c6RowM] pBoth 100 (1000 : Int).toNat) :=
  both_merge_counts_and_sort [c6RowA] [c6RowM] 100 pBoth 1000 (by decide) (by decide) (by decide)

/-- Claim C7 counterexample: a per-type request with `telco=Vodacom`
queries no table, yet is answered with an empty HTTP 200 data payload,
which is not the client error the claim requires for every request. -/
theorem invalid_telco_perType_counterexample :
    (loanTypeHandler [] [] 0 "7" qVodacom).1 = ApiResponse.loanData [] ∧
    (loanTypeHandler [] [] 0 "7" qVodacom).2 = [] ∧
    ApiResponse.loanData ([] : List DashboardRecord) ≠
      ApiResponse.clientError "Invalid telco parameter" := by
  refine ⟨rfl, rfl, ?_⟩
  intro h
  exact ApiResponse.noConfusion h

/-- Claim C7 amended: an operator filter outside `{airtel, mtn, both}`
(case-insensitive) issues no query on either endpoint; the general
endpoint answers with the client error `Invalid telco parameter`, while
the per-type endpoint (with a valid loan type) instead answers success
with an empty data payload. -/
theorem invalid_telco_behavior (dbA dbM : List RawRow) (today : Nat)
    (p : LoanQueryParams) (q : TypeQueryParams) (lt dbLT : String)
    (hp1 : strToLower (p.telco.getD "both") ≠ "airtel")
    (hp2 : strToLower (p.telco.getD "both") ≠ "mtn")
    (hp3 : strToLower (p.telco.getD "both") ≠ "both")
    (hq1 : strToLower (q.telco.getD "both") ≠ "airtel")
    (hq2 : strToLower (q.telco.getD "both") ≠ "mtn")
    (hq3 : strToLower (q.telco.getD "both") ≠ "both")
    (hlt : loanTypeMap lt = some dbLT) :
    loanDataHandler dbA dbM today p = (ApiResponse.clientError "Invalid telco parameter", []) ∧
    loanTypeHandler dbA dbM today lt q = (ApiResponse.loanData [], []) := by
  have htabp := tablesForTelco_of_invalid _ hp1 hp2 hp3
  have htabq := tablesForTelco_of_invalid _ hq1 hq2 hq3
  constructor
  · simp [loanDataHandler, htabp]
  · cases hL : jsParseInt (q.limit.getD "500") with
    | none => simp [loanTypeHandler, hlt, htabq, hL]
    | some lim =>
      by_cases hneg : lim < 0 <;> simp [loanTypeHandler, hlt, htabq, hL, hneg]

/-- Claim C7 amended witness: `telco=Vodacom` on both endpoints. -/
theorem invalid_telco_behavior_wit :
    loanDataHandler [] [] 0 pVodacom = (ApiResponse.clientError "Invalid telco parameter", []) ∧
    loanTypeHandler [] [] 0 "7" qVodacom = (ApiResponse.loanData [], []) :=
  invalid_telco_behavior [] [] 0 pVodacom qVodacom "7" "Nano 7D"
    (by decide) (by decide) (by decide) (by decide) (by decide) (by decide) rfl

/-- Claim C8 counterexample: `days=-5` makes the general and per-type
windows -5 (no clamping to a positive integer), and a non-numeric `days`
on the summary endpoint stays NaN instead of falling back to 30. -/
theorem days_not_clamped_counterexample :
    effDaysGeneral (some "-5") = -5 ∧ ¬((0 : Int) < effDaysGeneral (some "-5")) ∧
    effDaysPerType (some "-5") = -5 ∧
    summaryWindowParam (some "abc") = none ∧
    summaryWindowParam (some "abc") ≠ some 30 :=
  ⟨by decide, by decide, by decide, by decide, by decide⟩

/-- Claim C8 amended: the window defaults to 7 days for the general and
per-type endpoints and 30 for the summary endpoint; on the general and
per-type endpoints a non-numeric (or zero) `days` falls back to the
default, and any other parsed value — negative included — is used as-is
with no clamping; the summary endpoint passes the parsed value through
with no fallback, so non-numeric input stays NaN. -/
theorem days_window_amended (s t : String) (n : Int)
    (hs : jsParseInt s = none) (ht : jsParseInt t = some n) (hn : n ≠ 0) :
    effDaysGeneral none = 7 ∧ effDaysPerType none = 7 ∧
    summaryWindowParam none = some 30 ∧
    effDaysGeneral (some s) = 7 ∧ effDaysPerType (some s) = 7 ∧
    summaryWindowParam (some s) = none ∧
    effDaysGeneral (some t) = n ∧ effDaysPerType (some t) = n ∧
    summaryWindowParam (some t) = some n := by
  refine ⟨by decide, by decide, by decide, ?_, ?_, ?_, ?_, ?_, ?_⟩
  · simp [effDaysGeneral, hs, jsOrInt]
  · simp [effDaysPerType, hs, jsOrInt]
  · simp [summaryWindowParam, hs]
  · simp [effDaysGeneral, ht, jsOrInt, hn]
  · simp [effDaysPerType, ht, jsOrInt, hn]
  · simp [summaryWindowParam, ht]

/-- Claim C8 amended witness: `days=abc` falls back (except on summary),
`days=-5` passes through everywhere. -/
theorem days_window_amended_wit :
    effDaysGeneral none = 7 ∧ effDaysPerType none = 7 ∧
    summaryWindowParam none = some 30 ∧
    effDaysGeneral (some "abc") = 7 ∧ effDaysPerType (some "abc") = 7 ∧
    summaryWindowParam (some "abc") = none ∧
    effDaysGeneral (some "-5") = -5 ∧ effDaysPerType (some "-5") = -5 ∧
    summaryWindowParam (some "-5") = some (-5) :=
  days_window_amended "abc" "-5" (-5) (by decide) (by decide) (by decide)

/-- Claim C9: an NPL result set holding the four tenure categories, Grand
Total and one further category comes out of the categorical ORDER BY in
exactly the canonical sequence 7, 14, 21, 30, Grand Total, other —
whatever the input order. -/
theorem npl_canonical_order (r7 r14 r21 r30 rgt rx : NplRow) (l : List NplRow)
    (h7 : r7.loan_type = "7 Days Loan") (h14 : r14.loan_type = "14 Days Loan")
    (h21 : r21.loan_type = "21 Days Loan") (h30 : r30.loan_type = "30 Days Loan")
    (hgt : rgt.loan_type = "Grand Total")
    (hx : rx.loan_type ∉ ["7 Days Loan", "14 Days Loan", "21 Days Loan",
      "30 Days Loan", "Grand Total"])
    (hl : l.Perm [r7, r14, r21, r30, rgt, rx]) :
    nplSort l = [r7, r14, r21, r30, rgt, rx] := by
  have hx6 : nplRank rx.loan_type = 6 := by
    simp only [List.mem_cons, List.not_mem_nil, or_false] at hx
    push_neg at hx
    obtain ⟨n1, n2, n3, n4, n5⟩ := hx
    unfold nplRank
    rw [if_neg n1, if_neg n2, if_neg n3, if_neg n4, if_neg n5]
  have hranks : ([r7, r14, r21, r30, rgt, rx].map (fun t => nplRank t.loan_type)) =
      [1, 2, 3, 4, 5, 6] := by
    simp only [List.map_cons, List.map_nil, h7, h14, h21, h30, hgt, hx6]
    decide
  have hperm : (nplSort l).Perm [r7, r14, r21, r30, rgt, rx] :=
    (List.perm_insertionSort nplLe l).trans hl
  have hsorted : List.Sorted nplLe (nplSort l) := List.sorted_insertionSort nplLe l
  have hnd : ((nplSort l).map (fun t => nplRank t.loan_type)).Nodup := by
    have hc : ([r7, r14, r21, r30, rgt, rx].map (fun t => nplRank t.loan_type)).Nodup := by
      rw [hranks]; decide
    exact ((hperm.map (fun t => nplRank t.loan_type)).nodup_iff).mpr hc
  have hpw : List.Pairwise (fun x y : NplRow => nplRank x.loan_type ≠ nplRank y.loan_type)
      (nplSort l) := List.pairwise_map.mp hnd
  have hstrict : List.Sorted nplLt (nplSort l) :=
    (hsorted.and hpw).imp fun hh => lt_of_le_of_ne hh.1 hh.2
  have hcanon : List.Sorted nplLt [r7, r14, r21, r30, rgt, rx] := by
    simp [List.sorted_cons, nplLt, h7, h14, h21, h30, hgt, hx6]
    decide
  exact List.eq_of_perm_of_sorted hperm hstrict hcanon

/-- Claim C9 witness: a scrambled six-element result set sorts to the
canonical order. -/
theorem npl_canonical_order_wit :
    nplSort [nplX, nplGT, npl30, npl7, npl21, npl14] =
      [npl7, npl14, npl21, npl30, nplGT, nplX] :=
  npl_canonical_order npl7 npl14 npl21 npl30 nplGT nplX
    [nplX, nplGT, npl30, npl7, npl21, npl14]
    rfl rfl rfl rfl rfl (by decide) (by decide)

/-- Claim C10: when start and end date are not both truthy, the BETWEEN
branch is not taken: the date filter is the default trailing window, the
same as if neither date had been supplied, on both the general and the
per-type endpoint. -/
theorem single_date_ignored (p : LoanQueryParams) (q : TypeQueryParams)
    (hp : ¬(jsTruthy p.start_date = true ∧ jsTruthy p.end_date = true))
    (hq : ¬(jsTruthy q.start_date = true ∧ jsTruthy q.end_date = true)) :
    dateFilterGeneral p = DateFilter.window (effDaysGeneral p.days) ∧
    dateFilterGeneral p = dateFilterGeneral { p with start_date := none, end_date := none } ∧
    dateFilterPerType q = DateFilter.window (effDaysPerType q.days) ∧
    dateFilterPerType q = dateFilterPerType { q with start_date := none, end_date := none } := by
  have hpb : (jsTruthy p.start_date && jsTruthy p.end_date) = false := by
    cases hs : jsTruthy p.start_date <;> cases he : jsTruthy p.end_date <;> simp_all
  have hqb : (jsTruthy q.start_date && jsTruthy q.end_date) = false := by
    cases hs : jsTruthy q.start_date <;> cases he : jsTruthy q.end_date <;> simp_all
  have hnone : jsTruthy none = false := rfl
  refine ⟨?_, ?_, ?_, ?_⟩ <;>
    simp [dateFilterGeneral, dateFilterPerType, hpb, hqb, hnone]

/-- Claim C10 witness: a lone start date and a lone end date both fall
back to the default window. -/
theorem single_date_ignored_wit :
    dateFilterGeneral pStartOnly = DateFilter.window (effDaysGeneral pStartOnly.days) ∧
    dateFilterGeneral pStartOnly =
      dateFilterGeneral { pStartOnly with start_date := none, end_date := none } ∧
    dateFilterPerType qEndOnly = DateFilter.window (effDaysPerType qEndOnly.days) ∧
    dateFilterPerType qEndOnly =
      dateFilterPerType { qEndOnly with start_date := none, end_date := none } :=
  single_date_ignored pStartOnly qEndOnly (by decide) (by decide)

end Emerald
